import Mathlib

/-!
Verification of the Oracle-to-Elasticsearch migration service.

Shallow embedding of `src/services/oracle_service.py` and
`src/routes/migration.py`.  Database cursors are modelled by explicit
parameters (a description function, a row function); Python exceptions are
modelled with `Except`; Python dictionaries become Lean structures; Python
strings become Lean `String` with list-of-characters helpers mirroring
the semantics of `in`, `.upper()`, `.lower()` and `.startswith` on the
ASCII inputs the service handles.
-/

namespace OracleMigration

/-! ### String helpers mirroring the Python operations used by the source -/

/-- Python membership test `pat in s` on lists of characters. -/
def charsContain (pat : List Char) : List Char → Bool
  | [] => pat.isEmpty
  | c :: rest => pat.isPrefixOf (c :: rest) || charsContain pat rest

/-- Python `pat in s` on strings. -/
def pyIn (pat s : String) : Bool :=
  charsContain pat.data s.data

/-- Python `s.upper()` (ASCII). -/
def pyUpper (s : String) : String :=
  String.mk (s.data.map Char.toUpper)

/-- Python `s.lower()` (ASCII). -/
def pyLower (s : String) : String :=
  String.mk (s.data.map Char.toLower)

/-- Python `s.startswith(pat)`. -/
def pyStartsWith (s pat : String) : Bool :=
  pat.data.isPrefixOf s.data

/-! ### OracleService type mapping (`_map_oracle_to_es_type`)

The Python function builds a dictionary `type_mapping`, then short-circuits
every type name starting with `NUMBER` (comma present means a declared
scale, hence `double`, otherwise `long`), and finally falls back to
`type_mapping.get(oracle_type, 'keyword')`. -/

/-- The `type_mapping` dictionary of `_map_oracle_to_es_type` as an
association list (the Python dict has distinct keys, so lookup order is
irrelevant). -/
def type_mapping : List (String × String) :=
  [("NUMBER", "long"),
   ("FLOAT", "float"),
   ("BINARY_FLOAT", "float"),
   ("BINARY_DOUBLE", "double"),
   ("VARCHAR2", "text"),
   ("CHAR", "keyword"),
   ("NVARCHAR2", "text"),
   ("NCHAR", "keyword"),
   ("CLOB", "text"),
   ("NCLOB", "text"),
   ("DATE", "date"),
   ("TIMESTAMP", "date"),
   ("TIMESTAMP WITH TIME ZONE", "date"),
   ("TIMESTAMP WITH LOCAL TIME ZONE", "date"),
   ("BLOB", "binary"),
   ("RAW", "binary"),
   ("LONG RAW", "binary")]

/-- Python `type_mapping.get(key)` as an `Option`. -/
def type_mapping_get (t : String) : Option String :=
  (type_mapping.find? (fun p => p.1 == t)).map (fun p => p.2)

/-- `OracleService._map_oracle_to_es_type(oracle_type)`. -/
def map_oracle_to_es_type (oracle_type : String) : String :=
  if pyStartsWith oracle_type "NUMBER" then
    if pyIn "," oracle_type then "double" else "long"
  else
    (type_mapping_get oracle_type).getD "keyword"

/-- A source type name the mapping code recognizes: either it is a key of
the `type_mapping` dictionary or it triggers the `NUMBER` branch. -/
def recognizedOracleType (t : String) : Bool :=
  pyStartsWith t "NUMBER" || (type_mapping_get t).isSome

/-- The Elasticsearch types `_map_oracle_to_es_type` can produce. -/
def esTypes : List String :=
  ["long", "float", "double", "text", "keyword", "date", "binary"]

/-! ### Oracle type codes (`_get_oracle_type_name`)

The `oracledb.DB_TYPE_*` constants are opaque driver objects; we model
them as an inductive type with one constructor per constant the code
distinguishes plus `other` for every remaining code. -/

/-- An `oracledb` cursor-description type code. -/
inductive DbType where
  | varchar | char | number | date | timestamp
  | clob | blob | binary_float | binary_double
  | other
deriving DecidableEq, Repr

/-- `OracleService._get_oracle_type_name(type_code)`: the `type_codes`
dictionary lookup with default `'UNKNOWN'`. -/
def get_oracle_type_name : DbType → String
  | .varchar => "VARCHAR2"
  | .char => "CHAR"
  | .number => "NUMBER"
  | .date => "DATE"
  | .timestamp => "TIMESTAMP"
  | .clob => "CLOB"
  | .blob => "BLOB"
  | .binary_float => "BINARY_FLOAT"
  | .binary_double => "BINARY_DOUBLE"
  | .other => "UNKNOWN"

/-! ### `get_table_columns`

The cursor row is a tuple from `user_tab_columns`:
`(column_name, data_type, data_length, data_precision, data_scale,
nullable, data_default)`.  Note the code maps the Elasticsearch type from
`row[1]` alone, the bare `data_type` string, without the precision or
scale columns. -/

/-- One fetched row of the `user_tab_columns` query. -/
structure OraColRow where
  column_name : String
  data_type : String
  data_length : Option Int
  data_precision : Option Int
  data_scale : Option Int
  nullable : String
  data_default : Option String
deriving DecidableEq, Repr

/-- One element of the list `get_table_columns` returns. -/
structure ColumnInfo where
  column_name : String
  data_type : String
  data_length : Option Int
  data_precision : Option Int
  data_scale : Option Int
  nullable : Bool
  data_default : Option String
  elasticsearch_type : String
deriving DecidableEq, Repr

/-- The dictionary `get_table_columns` builds for one fetched row. -/
def tableColumnOfRow (row : OraColRow) : ColumnInfo :=
  { column_name := row.column_name
    data_type := row.data_type
    data_length := row.data_length
    data_precision := row.data_precision
    data_scale := row.data_scale
    nullable := row.nullable = "Y"
    data_default := row.data_default
    elasticsearch_type := map_oracle_to_es_type row.data_type }

/-- `OracleService.get_table_columns`, parameterized by the rows the
`user_tab_columns` cursor fetches. -/
def get_table_columns (rows : List OraColRow) : List ColumnInfo :=
  rows.map tableColumnOfRow

/-! ### `analyze_query`

The code wraps the query as `SELECT * FROM ({query}) WHERE ROWNUM = 0`,
executes the wrapped statement, and reads only `cursor.description`
(pairs of column name and type code); it performs no fetch call.  The
cursor is modelled by a description function from executed statement to
description, and the trace records every executed statement and every
row-fetch call. -/

/-- The wrapped statement `analyze_query` executes. -/
def describeStmt (query : String) : String :=
  "SELECT * FROM (" ++ query ++ ") WHERE ROWNUM = 0"

/-- `OracleService._extract_source_from_query`: both the normal path and
the exception handler return the same string. -/
def extract_source_from_query (_query column_name : String) : String :=
  "query." ++ column_name

/-- One join dictionary produced by `_extract_joins_from_query`. -/
structure JoinInfo where
  type : String
  condition : String
deriving DecidableEq, Repr

/-- `OracleService._extract_joins_from_query(query)`. -/
def extract_joins_from_query (query : String) : List JoinInfo :=
  if pyIn "JOIN" (pyUpper query) then
    [{ type := "INNER", condition := "Detected in query" }]
  else
    []

/-- One column dictionary produced by `analyze_query`. -/
structure AnalysisColumn where
  field : String
  oracle_type : String
  elasticsearch_type : String
  source : String
deriving DecidableEq, Repr

/-- The dictionary `analyze_query` returns. -/
structure AnalysisResult where
  columns : List AnalysisColumn
  joins : List JoinInfo
  query_type : String
deriving DecidableEq, Repr

/-- The column dictionary `analyze_query` builds from one entry of
`cursor.description`. -/
def analysisColumnOfDesc (query : String) (d : String × DbType) : AnalysisColumn :=
  { field := pyLower d.1
    oracle_type := get_oracle_type_name d.2
    elasticsearch_type := map_oracle_to_es_type (get_oracle_type_name d.2)
    source := extract_source_from_query query d.1 }

/-- `OracleService.analyze_query`, parameterized by the description the
cursor reports for the executed (wrapped) statement. -/
def analyze_query (query : String) (desc : List (String × DbType)) : AnalysisResult :=
  { columns := desc.map (analysisColumnOfDesc query)
    joins := extract_joins_from_query query
    query_type := "SELECT" }

/-- Trace of cursor interactions: statements executed and number of
row-fetch calls (`fetchone` / `fetchall`) made. -/
structure CursorTrace where
  executed : List String
  rowsFetched : Nat
deriving DecidableEq, Repr

/-- `analyze_query` with its cursor interactions made explicit: the db
argument gives the description the cursor reports for a statement.  The
body executes exactly the wrapped statement and makes no fetch call,
exactly as the source does. -/
def analyze_query_run (query : String) (db : String → List (String × DbType)) :
    AnalysisResult × CursorTrace :=
  (analyze_query query (db (describeStmt query)),
   { executed := [describeStmt query], rowsFetched := 0 })

/-! ### Oracle `ROWNUM` semantics

`ROWNUM` is assigned starting at 1 and only advances when a row passes
the predicate; a `WHERE ROWNUM = 0` filter therefore returns no rows. -/

/-- Filtering rows by a predicate on `ROWNUM`, with current counter `c`. -/
def rownumScan {α : Type} (pred : Nat → Bool) : Nat → List α → List α
  | _, [] => []
  | c, r :: rs =>
    if pred c then r :: rownumScan pred (c + 1) rs else rownumScan pred c rs

/-- The rows of `SELECT * FROM (inner) WHERE ROWNUM <pred>` when the
inner query yields `rows`. -/
def rownumWhere {α : Type} (pred : Nat → Bool) (rows : List α) : List α :=
  rownumScan pred 1 rows

/-! ### `execute_query`

The code wraps the query with a `ROWNUM <= limit` filter only when the
upper-cased query contains neither `ROWNUM` nor `LIMIT`; it then fetches
all rows of the executed statement and reports `total_rows` as the length
of the fetched list. -/

/-- The statement `execute_query` executes: the `limited_query` local. -/
def limitedQuery (query : String) (lim : Nat) : String :=
  if ¬ pyIn "ROWNUM" (pyUpper query) ∧ ¬ pyIn "LIMIT" (pyUpper query) then
    "SELECT * FROM (" ++ query ++ ") WHERE ROWNUM <= " ++ toString lim
  else
    query

/-- The dictionary `execute_query` returns, with rows kept abstract. -/
structure QueryResult (α : Type) where
  rows : List α
  total_rows : Nat
deriving DecidableEq, Repr

/-- `OracleService.execute_query`, parameterized by the row list the
cursor fetches for a given executed statement. -/
def execute_query {α : Type} (query : String) (lim : Nat)
    (db : String → List α) : QueryResult α :=
  { rows := db (limitedQuery query lim)
    total_rows := (db (limitedQuery query lim)).length }

/-! ### `test_connection`

`get_connection` may raise, `cursor.execute("SELECT 1 FROM DUAL")` may
raise, `cursor.fetchone()` may raise; the function returns `True` when
all succeed and `False` on any exception. -/

/-- `OracleService.test_connection`, parameterized by the outcome of each
fallible step (connection acquisition, execute, fetchone). -/
def test_connection {Conn Err Row : Type}
    (getConn : Except Err Conn)
    (execDual : Conn → Except Err Unit)
    (fetchone : Conn → Except Err (Option Row)) : Bool :=
  match getConn with
  | .error _ => false
  | .ok conn =>
    match execDual conn with
    | .error _ => false
    | .ok _ =>
      match fetchone conn with
      | .error _ => false
      | .ok _ => true

/-! ### Migration routes (`src/routes/migration.py`)

Jobs and their batches are modelled as records; a batch belongs to the
job record holding it, so deleting a job deletes (cascades to) its
batches.  Timestamps are abstract naturals. -/

/-- A `MigrationBatch` row. -/
structure MigrationBatch where
  offset : Nat
  limit : Nat
  status : String
  processed_records : Nat
  error_message : Option String
deriving DecidableEq, Repr

/-- A `MigrationJob` row together with its batches. -/
structure MigrationJob where
  id : Nat
  mapping_configuration_id : Nat
  status : String
  total_records : Nat
  processed_records : Nat
  failed_records : Nat
  start_time : Option Nat
  end_time : Option Nat
  error_message : Option String
  is_incremental : Bool
  batches : List MigrationBatch
deriving DecidableEq, Repr

/-- The per-batch reset in `retry_job`: a batch whose status is not
`completed` goes back to `pending` with zero processed records and no
error message; a `completed` batch is untouched. -/
def resetBatch (b : MigrationBatch) : MigrationBatch :=
  if b.status ≠ "completed" then
    { b with status := "pending", processed_records := 0, error_message := none }
  else b

/-- The state mutation of route `retry_job` (`POST /jobs/<id>/retry`):
rejected unless the job status is `failed`; otherwise the job is reset to
`pending` with zeroed counters and cleared timestamps and error, and each
non-`completed` batch is reset. -/
def retry_job (job : MigrationJob) : Except String MigrationJob :=
  if job.status ≠ "failed" then .error "Job has not failed"
  else .ok { job with
    status := "pending"
    processed_records := 0
    failed_records := 0
    start_time := none
    end_time := none
    error_message := none
    batches := job.batches.map resetBatch }

/-- `MigrationJob.query.get(job_id)`. -/
def findJob (jobs : List MigrationJob) (job_id : Nat) : Option MigrationJob :=
  jobs.find? (fun j => j.id == job_id)

/-- Server state seen by the routes: the job table plus the set of
cooperative stop signals held by the migration service. -/
structure MigrationState where
  jobs : List MigrationJob
  stopRequested : List Nat
deriving DecidableEq, Repr

/-- Modelled from the spec: `MigrationService.stop_migration` is not
under `src/` (only its caller `stop_job` is).  Per the spec it sets a
cooperative cancellation signal checked between batches and returns
immediately, mutating no job or batch state. -/
def stop_migration (s : MigrationState) (job_id : Nat) : MigrationState :=
  { s with stopRequested := job_id :: s.stopRequested }

/-- Route `stop_job` (`POST /jobs/<id>/stop`): 404 when the job does not
exist, rejected with `Job is not running` unless the status is `running`,
otherwise the stop signal is set and a success message returned. -/
def stop_job (s : MigrationState) (job_id : Nat) :
    Except String String × MigrationState :=
  match findJob s.jobs job_id with
  | none => (.error "not found", s)
  | some job =>
    if job.status ≠ "running" then (.error "Job is not running", s)
    else (.ok "Migration job stopped", stop_migration s job_id)

/-- Route `clear_completed_jobs` (`DELETE /jobs/completed`): deletes every
job whose status is `completed` (its batches live inside the record, so
they cascade) and returns the number deleted with the surviving table. -/
def clear_completed_jobs (jobs : List MigrationJob) : Nat × List MigrationJob :=
  ((jobs.filter (fun j => j.status == "completed")).length,
   jobs.filter (fun j => ! (j.status == "completed")))

/-- The fresh `pending` job row `create_job` inserts. -/
def newJob (fresh_id config_id : Nat) (is_incremental : Bool) : MigrationJob :=
  { id := fresh_id
    mapping_configuration_id := config_id
    status := "pending"
    total_records := 0
    processed_records := 0
    failed_records := 0
    start_time := none
    end_time := none
    error_message := none
    is_incremental := is_incremental
    batches := [] }

/-- Modelled from the spec: the entry check and start of
`MigrationService.start_migration` are not under `src/` (only the caller
routes are).  Per the spec it rejects with a conflict condition when
another job for the same configuration is already `running` (it does not
queue), and otherwise transitions the job to `running`, stamping the
start time. -/
def start_migration (jobs : List MigrationJob) (job_id now : Nat) :
    Except String (List MigrationJob) :=
  match findJob jobs job_id with
  | none => .error "job not found"
  | some job =>
    if jobs.any (fun k =>
        k.mapping_configuration_id == job.mapping_configuration_id &&
        k.status == "running" && k.id != job.id) then
      .error "ConflictError"
    else
      .ok (jobs.map (fun k =>
        if k.id == job.id then { k with status := "running", start_time := some now }
        else k))

/-- Route `create_job` (`POST /jobs`): inserts a fresh `pending` job for
the configuration and commits it, then asks the migration service to
start it.  A failure of the start step is caught and reported as an
error; the rollback happens after the commit, so the inserted `pending`
row persists either way. -/
def create_job (jobs : List MigrationJob) (fresh_id config_id : Nat)
    (is_incremental : Bool) (now : Nat) :
    Except String Unit × List MigrationJob :=
  let jobs1 := jobs ++ [newJob fresh_id config_id is_incremental]
  match start_migration jobs1 fresh_id now with
  | .error e => (.error e, jobs1)
  | .ok jobs2 => (.ok (), jobs2)

/-- Number of `running` jobs of a configuration. -/
def runningFor (jobs : List MigrationJob) (config_id : Nat) : Nat :=
  (jobs.filter (fun j =>
    j.status == "running" && j.mapping_configuration_id == config_id)).length

/-- Outcome of executing one batch window. -/
inductive BatchOutcome where
  | success (rows : Nat)
  | failure (msg : String) (attempted : Nat)
deriving DecidableEq, Repr

/-- Modelled from the spec: the execution loop of
`MigrationService.start_migration` is not under `src/`.  Per the spec it
visits batches in order, reuses (skips) `completed` batches, and for each
other batch either completes it and increments job `processed_records` by
its row count, or marks it `failed` and increments job `failed_records`
by the attempted row count.  Returns the updated batches and the
processed / failed increments. -/
def runBatchesAux (outcomes : Nat → BatchOutcome) :
    Nat → List MigrationBatch → List MigrationBatch × Nat × Nat
  | _, [] => ([], 0, 0)
  | i, b :: bs =>
    if b.status = "completed" then
      let r := runBatchesAux outcomes (i + 1) bs
      (b :: r.1, r.2)
    else
      match outcomes i with
      | .success n =>
        let r := runBatchesAux outcomes (i + 1) bs
        ({ b with status := "completed", processed_records := n,
                  error_message := none } :: r.1,
         n + r.2.1, r.2.2)
      | .failure m n =>
        let r := runBatchesAux outcomes (i + 1) bs
        ({ b with status := "failed", error_message := some m } :: r.1,
         r.2.1, n + r.2.2)

/-- Modelled from the spec: one re-run of a job after a retry
(steps 2 to 6 of the start flow): set `running`, process the
non-`completed` batches, add their counts to the job counters, and finish
`completed` when no batch is `failed`, otherwise `failed`. -/
def run_migration (job : MigrationJob) (outcomes : Nat → BatchOutcome)
    (startT endT : Nat) : MigrationJob :=
  let r := runBatchesAux outcomes 0 job.batches
  { job with
    status := if r.1.any (fun b => b.status == "failed") then "failed" else "completed"
    processed_records := job.processed_records + r.2.1
    failed_records := job.failed_records + r.2.2
    start_time := some startT
    end_time := some endT
    batches := r.1 }

/-! ## Theorems -/

/-- Claim C4: the type-mapping operation is total over arbitrary source
type name strings — it always returns one of the Elasticsearch types and
never fails — and every type name the code does not recognize (not a key
of the mapping dictionary and not starting with NUMBER) maps to the
low-cardinality string type keyword.  Totality is witnessed by the
embedding itself: `map_oracle_to_es_type` is a total function into
`String`, and its value always lies in `esTypes`. -/
theorem map_type_total_unknown_keyword :
    ∀ t : String, map_oracle_to_es_type t ∈ esTypes ∧
      (recognizedOracleType t = false → map_oracle_to_es_type t = "keyword") := by
  intro t
  have hval : ∀ v : String, type_mapping_get t = some v → v ∈ esTypes := by
    intro v h
    unfold type_mapping_get at h
    rw [Option.map_eq_some'] at h
    obtain ⟨p, hp, hpv⟩ := h
    have hmem : p ∈ type_mapping := List.mem_of_find?_eq_some hp
    have hall : ∀ q ∈ type_mapping, q.2 ∈ esTypes := by decide
    rw [← hpv]
    exact hall p hmem
  constructor
  · unfold map_oracle_to_es_type
    by_cases h1 : pyStartsWith t "NUMBER" = true
    · rw [if_pos h1]
      by_cases h2 : pyIn "," t = true
      · rw [if_pos h2]; decide
      · rw [if_neg h2]; decide
    · rw [if_neg h1]
      cases hg : type_mapping_get t with
      | none => decide
      | some v => exact hval v hg
  · intro h
    unfold recognizedOracleType at h
    rw [Bool.or_eq_false_iff] at h
    unfold map_oracle_to_es_type
    rw [if_neg (by simp [h.1])]
    cases hg : type_mapping_get t with
    | none => rfl
    | some v => rw [hg] at h; simp at h

/-- Witness for C4 at the unrecognized Oracle type name XMLTYPE. -/
theorem map_type_total_unknown_keyword_witness :
    recognizedOracleType "XMLTYPE" = false ∧
      map_oracle_to_es_type "XMLTYPE" = "keyword" :=
  ⟨by decide, (map_type_total_unknown_keyword "XMLTYPE").2 (by decide)⟩

/-- Counterexample to claim C2: a NUMBER(10,2) column reaching the mapper
through table-column introspection carries only the bare data_type string
NUMBER (precision 10 and scale 2 travel in separate tuple slots the
mapper never sees), and through query analysis only the type-code-derived
name NUMBER; both paths therefore yield long, not a floating-point
type. -/
theorem number_scale_introspection_counterexample :
    (get_table_columns
        [{ column_name := "PRICE", data_type := "NUMBER", data_length := some 22,
           data_precision := some 10, data_scale := some 2, nullable := "Y",
           data_default := none }]).map (fun c => c.elasticsearch_type) = ["long"] ∧
    (analyze_query "SELECT PRICE FROM PRODUCTS"
        [("PRICE", DbType.number)]).columns.map
      (fun c => c.elasticsearch_type) = ["long"] ∧
    ¬ ("long" = "float" ∨ "long" = "double") := by
  refine ⟨rfl, rfl, by decide⟩

/-- Claim C2 as amended: the mapper itself sends a scale-free NUMBER type
name to long and a type-name string containing a comma (such as the
literal string NUMBER(10,2)) to double; but `get_table_columns` maps from
the bare data_type string alone and `analyze_query` from the
type-code-derived name alone, neither of which ever contains a comma, so
a NUMBER(10,2) column obtained through either path is passed as plain
NUMBER and maps to long. -/
theorem number_scale_mapping_amended :
    map_oracle_to_es_type "NUMBER" = "long" ∧
    map_oracle_to_es_type "NUMBER(10,2)" = "double" ∧
    (∀ t : String, pyStartsWith t "NUMBER" = true →
      map_oracle_to_es_type t = if pyIn "," t then "double" else "long") ∧
    (∀ rows : List OraColRow,
      (get_table_columns rows).map (fun c => c.elasticsearch_type) =
        rows.map (fun r => map_oracle_to_es_type r.data_type)) ∧
    (∀ (query : String) (desc : List (String × DbType)),
      (analyze_query query desc).columns.map (fun c => c.elasticsearch_type) =
        desc.map (fun d => map_oracle_to_es_type (get_oracle_type_name d.2))) ∧
    (∀ d : DbType, pyIn "," (get_oracle_type_name d) = false) ∧
    map_oracle_to_es_type (get_oracle_type_name DbType.number) = "long" := by
  refine ⟨rfl, by decide, ?_, ?_, ?_, ?_, by decide⟩
  · intro t h
    unfold map_oracle_to_es_type
    rw [if_pos (by simp [h])]
  · intro rows
    simp [get_table_columns, tableColumnOfRow]
  · intro query desc
    simp [analyze_query, analysisColumnOfDesc]
  · intro d
    cases d <;> decide

/-- Witness for C2 as amended: a scale-free NUMBER(38) type name string
maps to long via the comma test. -/
theorem number_scale_mapping_amended_witness :
    pyStartsWith "NUMBER(38)" "NUMBER" = true ∧
      map_oracle_to_es_type "NUMBER(38)" =
        if pyIn "," "NUMBER(38)" then "double" else "long" :=
  ⟨by decide, number_scale_mapping_amended.2.2.1 "NUMBER(38)" (by decide)⟩

/-- Claim C8: the joins reported by `analyze_query` are exactly the single
entry with type INNER and condition Detected in query when the upper-cased
query text contains the substring JOIN, and the empty sequence otherwise;
every reported join has type INNER regardless of the join kind in the
query. -/
theorem joins_detection :
    ∀ (query : String) (desc : List (String × DbType)),
      (analyze_query query desc).joins = extract_joins_from_query query ∧
      (pyIn "JOIN" (pyUpper query) = true →
        (analyze_query query desc).joins =
          [{ type := "INNER", condition := "Detected in query" }]) ∧
      (pyIn "JOIN" (pyUpper query) = false →
        (analyze_query query desc).joins = []) ∧
      (∀ j ∈ (analyze_query query desc).joins, j.type = "INNER") := by
  intro query desc
  refine ⟨rfl, ?_, ?_, ?_⟩
  · intro h
    simp [analyze_query, extract_joins_from_query, h]
  · intro h
    simp [analyze_query, extract_joins_from_query, h]
  · intro j hj
    simp only [analyze_query, extract_joins_from_query] at hj
    by_cases h : pyIn "JOIN" (pyUpper query) = true
    · rw [if_pos h] at hj
      simp at hj
      rw [hj]
    · rw [if_neg h] at hj
      simp at hj

/-- Witness for C8: a LEFT OUTER JOIN query is reported as one INNER join
entry, and a join-free query as no joins. -/
theorem joins_detection_witness :
    (analyze_query "SELECT * FROM A LEFT OUTER JOIN B ON A.X = B.X" []).joins =
      [{ type := "INNER", condition := "Detected in query" }] ∧
    (analyze_query "SELECT 1 FROM DUAL" []).joins = [] :=
  ⟨(joins_detection "SELECT * FROM A LEFT OUTER JOIN B ON A.X = B.X" []).2.1 (by decide),
   (joins_detection "SELECT 1 FROM DUAL" []).2.2.1 (by decide)⟩

/-- Claim C9: `execute_query` adds the ROWNUM row bound exactly when the
upper-cased query contains neither ROWNUM nor LIMIT; when either
substring occurs the query runs unmodified, so the returned rows can
exceed the limit; and in every case total_rows is the length of the
returned sample, not the true total of the source query. -/
theorem execute_query_limit_behavior :
    (∀ (query : String) (lim : Nat),
      (pyIn "ROWNUM" (pyUpper query) = false → pyIn "LIMIT" (pyUpper query) = false →
        limitedQuery query lim =
          "SELECT * FROM (" ++ query ++ ") WHERE ROWNUM <= " ++ toString lim) ∧
      (pyIn "ROWNUM" (pyUpper query) = true ∨ pyIn "LIMIT" (pyUpper query) = true →
        limitedQuery query lim = query)) ∧
    (∀ (α : Type) (query : String) (lim : Nat) (db : String → List α),
      (execute_query query lim db).rows = db (limitedQuery query lim) ∧
      (execute_query query lim db).total_rows =
        (execute_query query lim db).rows.length) ∧
    (∃ (query : String) (lim : Nat) (db : String → List Nat),
      pyIn "LIMIT" (pyUpper query) = true ∧
      (execute_query query lim db).rows.length > lim) := by
  refine ⟨?_, ?_, "SELECT X FROM T LIMIT 5", 2, fun _ => [1, 2, 3], by decide, ?_⟩
  · intro query lim
    constructor
    · intro h1 h2
      unfold limitedQuery
      rw [if_pos (by simp [h1, h2])]
    · intro h
      unfold limitedQuery
      rcases h with h | h
      · rw [if_neg (by simp [h])]
      · rw [if_neg (by simp [h])]
  · intro α query lim db
    exact ⟨rfl, rfl⟩
  · show (execute_query "SELECT X FROM T LIMIT 5" 2 (fun _ => [1, 2, 3])).rows.length > 2
    have : (execute_query "SELECT X FROM T LIMIT 5" 2
        (fun _ => ([1, 2, 3] : List Nat))).rows = [1, 2, 3] := rfl
    rw [this]
    decide

/-- Witness for C9: a plain query gets the ROWNUM wrapper and a query
containing the ROWNUM substring is left unmodified. -/
theorem execute_query_limit_behavior_witness :
    limitedQuery "SELECT X FROM T" 10 =
      "SELECT * FROM (SELECT X FROM T) WHERE ROWNUM <= 10" ∧
    limitedQuery "SELECT X FROM T WHERE ROWNUM < 3" 10 =
      "SELECT X FROM T WHERE ROWNUM < 3" :=
  ⟨(execute_query_limit_behavior.1 "SELECT X FROM T" 10).1 (by decide) (by decide),
   (execute_query_limit_behavior.1 "SELECT X FROM T WHERE ROWNUM < 3" 10).2
     (Or.inl (by decide))⟩

/-- Claim C10: `test_connection` never raises — it is a total Boolean
function of the outcomes of its three fallible steps — returning true
exactly when connecting, executing the trivial query and fetching all
succeed, and false on a failure of any step instead of propagating it. -/
theorem test_connection_never_raises :
    ∀ (Conn Err Row : Type) (getConn : Except Err Conn)
      (execDual : Conn → Except Err Unit)
      (fetchone : Conn → Except Err (Option Row)),
      (test_connection getConn execDual fetchone = true ↔
        ∃ conn, getConn = Except.ok conn ∧
          execDual conn = Except.ok () ∧ (∃ r, fetchone conn = Except.ok r)) ∧
      (∀ e, getConn = Except.error e →
        test_connection getConn execDual fetchone = false) ∧
      (∀ conn e, getConn = Except.ok conn → execDual conn = Except.error e →
        test_connection getConn execDual fetchone = false) ∧
      (∀ conn e, getConn = Except.ok conn → execDual conn = Except.ok () →
        fetchone conn = Except.error e →
        test_connection getConn execDual fetchone = false) := by
  intro Conn Err Row getConn execDual fetchone
  refine ⟨?_, ?_, ?_, ?_⟩
  · constructor
    · intro h
      unfold test_connection at h
      cases hc : getConn with
      | error e => simp [hc] at h
      | ok conn =>
        simp only [hc] at h
        cases he : execDual conn with
        | error e => simp [he] at h
        | ok u =>
          simp only [he] at h
          cases hf : fetchone conn with
          | error e => simp [hf] at h
          | ok r => cases u; exact ⟨conn, rfl, he, r, hf⟩
    · rintro ⟨conn, hc, he, r, hf⟩
      simp [test_connection, hc, he, hf]
  · intro e hc
    simp [test_connection, hc]
  · intro conn e hc he
    simp [test_connection, hc, he]
  · intro conn e hc he hf
    simp [test_connection, hc, he, hf]

/-- Witness for C10 with concrete step outcomes: a failed connection
yields false, and an all-successful run yields true. -/
theorem test_connection_never_raises_witness :
    @test_connection Unit String Nat (Except.error "ORA-12541")
      (fun _ => Except.ok ()) (fun _ => Except.ok (some 1)) = false ∧
    @test_connection Unit String Nat (Except.ok ())
      (fun _ => Except.ok ()) (fun _ => Except.ok (some 1)) = true :=
  ⟨(test_connection_never_raises Unit String Nat (Except.error "ORA-12541")
      (fun _ => Except.ok ()) (fun _ => Except.ok (some 1))).2.1 "ORA-12541" rfl,
   (test_connection_never_raises Unit String Nat (Except.ok ())
      (fun _ => Except.ok ()) (fun _ => Except.ok (some 1))).1.2
     ⟨(), rfl, rfl, some 1, rfl⟩⟩

/-- A `WHERE ROWNUM = 0` filter keeps no row: the counter starts at 1 and
only advances past rows that satisfy the predicate, so it never reaches
0. -/
theorem rownumScan_zero_of_pos {α : Type} (rows : List α) :
    ∀ c : Nat, c ≠ 0 → rownumScan (fun k => k == 0) c rows = [] := by
  induction rows with
  | nil => intro c _; rfl
  | cons r rs ih =>
    intro c hc
    unfold rownumScan
    rw [if_neg (by simp [hc])]
    exact ih c hc

/-- Claim C5: `analyze_query` executes exactly one statement, the query
wrapped so it returns no rows (`SELECT * FROM (query) WHERE ROWNUM = 0`;
under Oracle ROWNUM semantics that filter yields the empty row list for
every inner result), makes zero row-fetch calls, and its result is a
function of the description metadata the cursor reports for that wrapped
statement alone. -/
theorem analyze_query_schema_only :
    ∀ (query : String) (db : String → List (String × DbType)),
      (analyze_query_run query db).2.executed = [describeStmt query] ∧
      describeStmt query = "SELECT * FROM (" ++ query ++ ") WHERE ROWNUM = 0" ∧
      (analyze_query_run query db).2.rowsFetched = 0 ∧
      (∀ (α : Type) (innerRows : List α),
        rownumWhere (fun k => k == 0) innerRows = []) ∧
      (analyze_query_run query db).1 = analyze_query query (db (describeStmt query)) := by
  intro query db
  refine ⟨rfl, rfl, rfl, ?_, rfl⟩
  intro α innerRows
  exact rownumScan_zero_of_pos innerRows 1 (by decide)

/-- Claim C6: for every job present whose status is not running, the stop
route is rejected with an error and the whole state (job table and stop
signals) is returned unchanged; a stop is accepted exactly when the
status is running. -/
theorem stop_job_requires_running :
    ∀ (s : MigrationState) (job_id : Nat) (job : MigrationJob),
      findJob s.jobs job_id = some job →
      (job.status ≠ "running" →
        stop_job s job_id = (Except.error "Job is not running", s)) ∧
      ((∃ m, (stop_job s job_id).1 = Except.ok m) ↔ job.status = "running") := by
  intro s job_id job h
  constructor
  · intro hne
    simp only [stop_job, h]
    rw [if_pos hne]
  · constructor
    · rintro ⟨m, hm⟩
      by_cases hr : job.status = "running"
      · exact hr
      · exfalso
        simp only [stop_job, h] at hm
        rw [if_pos hr] at hm
        simp at hm
    · intro hr
      refine ⟨"Migration job stopped", ?_⟩
      simp only [stop_job, h]
      rw [if_neg (by simp [hr])]

/-- A pending job used as the concrete input of the C6 witness. -/
def stopFixtureJob : MigrationJob :=
  { id := 1, mapping_configuration_id := 1, status := "pending",
    total_records := 0, processed_records := 0, failed_records := 0,
    start_time := none, end_time := none, error_message := none,
    is_incremental := false, batches := [] }

/-- The server state holding only the pending job of the C6 witness. -/
def stopFixtureState : MigrationState :=
  { jobs := [stopFixtureJob], stopRequested := [] }

/-- Witness for C6: stopping a pending job is rejected and the state is
unchanged. -/
theorem stop_job_requires_running_witness :
    stop_job stopFixtureState 1 = (Except.error "Job is not running", stopFixtureState) :=
  (stop_job_requires_running stopFixtureState 1 stopFixtureJob (by decide)).1 (by decide)

/-- Claim C7: the bulk-clear deletes exactly the jobs whose status is
completed (with their batches, which live inside the job record) and
returns their count; every job in any other status survives unchanged,
batches included. -/
theorem clear_completed_exact :
    ∀ jobs : List MigrationJob,
      (clear_completed_jobs jobs).1 =
        (jobs.filter (fun j => j.status == "completed")).length ∧
      (∀ j ∈ jobs, j.status ≠ "completed" → j ∈ (clear_completed_jobs jobs).2) ∧
      (∀ j ∈ jobs, j.status = "completed" → j ∉ (clear_completed_jobs jobs).2) ∧
      (∀ j ∈ (clear_completed_jobs jobs).2, j ∈ jobs ∧ j.status ≠ "completed") := by
  intro jobs
  refine ⟨rfl, ?_, ?_, ?_⟩
  · intro j hj hns
    exact List.mem_filter.2 ⟨hj, by simp [hns]⟩
  · intro j hj hs hmem
    have := (List.mem_filter.1 hmem).2
    simp [hs] at this
  · intro j hj
    have h := List.mem_filter.1 hj
    refine ⟨h.1, ?_⟩
    intro hs
    rw [hs] at h
    simp at h

/-- A completed job used as a concrete input of the C7 witness. -/
def clearFixtureDone : MigrationJob :=
  { id := 2, mapping_configuration_id := 1, status := "completed",
    total_records := 10, processed_records := 10, failed_records := 0,
    start_time := some 1, end_time := some 2, error_message := none,
    is_incremental := false,
    batches := [{ offset := 0, limit := 10, status := "completed",
                  processed_records := 10, error_message := none }] }

/-- A failed job used as a concrete input of the C7 witness. -/
def clearFixtureFailed : MigrationJob :=
  { id := 3, mapping_configuration_id := 1, status := "failed",
    total_records := 10, processed_records := 4, failed_records := 6,
    start_time := some 1, end_time := some 2, error_message := some "boom",
    is_incremental := false,
    batches := [{ offset := 0, limit := 10, status := "failed",
                  processed_records := 4, error_message := some "boom" }] }

/-- Witness for C7: of a completed and a failed job, exactly the completed
one is deleted (count 1) and the failed one survives with its batches. -/
theorem clear_completed_exact_witness :
    (clear_completed_jobs [clearFixtureDone, clearFixtureFailed]).1 = 1 ∧
    clearFixtureFailed ∈ (clear_completed_jobs [clearFixtureDone, clearFixtureFailed]).2 ∧
    clearFixtureDone ∉ (clear_completed_jobs [clearFixtureDone, clearFixtureFailed]).2 :=
  ⟨by decide,
   (clear_completed_exact [clearFixtureDone, clearFixtureFailed]).2.1
     clearFixtureFailed (by decide) (by decide),
   (clear_completed_exact [clearFixtureDone, clearFixtureFailed]).2.2.1
     clearFixtureDone (by decide) (by decide)⟩

/-- A completed batch (100 processed rows) of the C1 fixture job. -/
def retryFixtureBatchDone : MigrationBatch :=
  { offset := 0, limit := 100, status := "completed",
    processed_records := 100, error_message := none }

/-- A failed batch of the C1 fixture job. -/
def retryFixtureBatchFailed : MigrationBatch :=
  { offset := 100, limit := 100, status := "failed",
    processed_records := 0, error_message := some "ORA-00001" }

/-- The C1 fixture: a failed job whose 100 processed records all came from
its one completed batch. -/
def retryFixtureJob : MigrationJob :=
  { id := 7, mapping_configuration_id := 3, status := "failed",
    total_records := 200, processed_records := 100, failed_records := 100,
    start_time := some 1, end_time := some 2,
    error_message := some "batch 2 failed", is_incremental := false,
    batches := [retryFixtureBatchDone, retryFixtureBatchFailed] }

/-- The C1 fixture job as `retry_job` leaves it. -/
def retryFixtureRetried : MigrationJob :=
  { id := 7, mapping_configuration_id := 3, status := "pending",
    total_records := 200, processed_records := 0, failed_records := 0,
    start_time := none, end_time := none,
    error_message := none, is_incremental := false,
    batches := [retryFixtureBatchDone,
      { offset := 100, limit := 100, status := "pending",
        processed_records := 0, error_message := none }] }

/-- Counterexample to claim C1: retrying this failed job sets the
job-level processed_records to 0, erasing the 100 records contributed by
the already-completed batch; the spec-modelled re-run then skips that
completed batch, and even when the remaining batch succeeds with 50 rows
the job ends with processed_records 50, strictly below the 100 it had
before the retry. -/
theorem retry_preserved_count_counterexample :
    retryFixtureJob.status = "failed" ∧
    retryFixtureJob.processed_records = 100 ∧
    retry_job retryFixtureJob = Except.ok retryFixtureRetried ∧
    retryFixtureRetried.processed_records = 0 ∧
    (run_migration retryFixtureRetried
      (fun _ => BatchOutcome.success 50) 10 11).status = "completed" ∧
    (run_migration retryFixtureRetried
      (fun _ => BatchOutcome.success 50) 10 11).processed_records = 50 ∧
    (run_migration retryFixtureRetried
        (fun _ => BatchOutcome.success 50) 10 11).processed_records <
      retryFixtureJob.processed_records := by
  refine ⟨rfl, rfl, rfl, rfl, rfl, rfl, by decide⟩

/-- Claim C1 as amended: for every failed job, retry resets each
non-completed batch to pending with zero processed records and no error
message, leaves completed batches untouched at the batch level, and sets
the job back to pending — but it zeroes the job-level processed_records
(and failed_records), so the count contributed by already-completed
batches is preserved only on the batch rows, not on the job, and after a
re-run that skips completed batches the job-level processed_records can
be lower than before the retry. -/
theorem retry_job_amended :
    ∀ job : MigrationJob, job.status = "failed" →
      ∃ j1, retry_job job = Except.ok j1 ∧
        j1.status = "pending" ∧ j1.processed_records = 0 ∧
        j1.failed_records = 0 ∧ j1.start_time = none ∧ j1.end_time = none ∧
        j1.error_message = none ∧
        j1.batches = job.batches.map resetBatch ∧
        (∀ b ∈ job.batches, b.status = "completed" → b ∈ j1.batches) ∧
        (∀ b ∈ j1.batches, b.status = "completed" ∨
          (b.status = "pending" ∧ b.processed_records = 0 ∧
            b.error_message = none)) := by
  intro job h
  unfold retry_job
  rw [if_neg (by simp [h])]
  refine ⟨_, rfl, rfl, rfl, rfl, rfl, rfl, rfl, rfl, ?_, ?_⟩
  · intro b hb hbc
    have hfix : resetBatch b = b := by
      unfold resetBatch
      rw [if_neg (by simp [hbc])]
    exact List.mem_map.2 ⟨b, hb, hfix⟩
  · intro b hb
    obtain ⟨a, _, rfl⟩ := List.mem_map.1 hb
    unfold resetBatch
    by_cases hc : a.status = "completed"
    · left
      rw [if_neg (by simp [hc])]
      exact hc
    · right
      rw [if_pos hc]
      exact ⟨rfl, rfl, rfl⟩

/-- Witness for C1 as amended, at the concrete fixture job. -/
theorem retry_job_amended_witness :
    ∃ j1, retry_job retryFixtureJob = Except.ok j1 ∧
      j1.status = "pending" ∧ j1.processed_records = 0 ∧
      j1.failed_records = 0 ∧ j1.start_time = none ∧ j1.end_time = none ∧
      j1.error_message = none ∧
      j1.batches = retryFixtureJob.batches.map resetBatch ∧
      (∀ b ∈ retryFixtureJob.batches, b.status = "completed" → b ∈ j1.batches) ∧
      (∀ b ∈ j1.batches, b.status = "completed" ∨
        (b.status = "pending" ∧ b.processed_records = 0 ∧
          b.error_message = none)) :=
  retry_job_amended retryFixtureJob (by decide)

/-- Claim C3: creating a job for a configuration that already has a
running job (with a fresh row id) is rejected with a conflict, the only
table change is the inserted pending row, the number of running jobs of
the configuration is unchanged, and the new row never reaches status
running — so at most one job per configuration runs at a time. -/
theorem create_job_conflict :
    ∀ (jobs : List MigrationJob) (fresh_id config_id : Nat) (inc : Bool) (now : Nat),
      (∀ j ∈ jobs, j.id ≠ fresh_id) →
      (∃ j ∈ jobs, j.mapping_configuration_id = config_id ∧ j.status = "running") →
      (create_job jobs fresh_id config_id inc now).1 = Except.error "ConflictError" ∧
      (create_job jobs fresh_id config_id inc now).2 =
        jobs ++ [newJob fresh_id config_id inc] ∧
      runningFor (create_job jobs fresh_id config_id inc now).2 config_id =
        runningFor jobs config_id ∧
      (∀ j ∈ (create_job jobs fresh_id config_id inc now).2,
        j.id = fresh_id → j.status = "pending") := by
  intro jobs fresh_id config_id inc now hfresh hex
  obtain ⟨j, hjmem, hjcfg, hjrun⟩ := hex
  have hfind : findJob (jobs ++ [newJob fresh_id config_id inc]) fresh_id =
      some (newJob fresh_id config_id inc) := by
    unfold findJob
    rw [List.find?_append]
    have h1 : List.find? (fun k => k.id == fresh_id) jobs = none :=
      List.find?_eq_none.2 (fun k hk => by simp [hfresh k hk])
    rw [h1, Option.none_or]
    simp [newJob]
  have hany : ((jobs ++ [newJob fresh_id config_id inc]).any (fun k =>
      k.mapping_configuration_id ==
        (newJob fresh_id config_id inc).mapping_configuration_id &&
      k.status == "running" && k.id != (newJob fresh_id config_id inc).id)) = true := by
    apply List.any_eq_true.2
    refine ⟨j, List.mem_append_left _ hjmem, ?_⟩
    simp [newJob, hjcfg, hjrun, hfresh j hjmem]
  have hsm : start_migration (jobs ++ [newJob fresh_id config_id inc]) fresh_id now =
      Except.error "ConflictError" := by
    unfold start_migration
    simp only [hfind]
    rw [if_pos hany]
  have hfilter : runningFor (jobs ++ [newJob fresh_id config_id inc]) config_id =
      runningFor jobs config_id := by
    unfold runningFor
    rw [List.filter_append]
    have hnew : List.filter (fun k =>
        k.status == "running" && k.mapping_configuration_id == config_id)
        [newJob fresh_id config_id inc] = [] := rfl
    rw [hnew, List.append_nil]
  refine ⟨?_, ?_, ?_, ?_⟩
  · simp [create_job, hsm]
  · simp [create_job, hsm]
  · have h2 : (create_job jobs fresh_id config_id inc now).2 =
        jobs ++ [newJob fresh_id config_id inc] := by simp [create_job, hsm]
    rw [h2]
    exact hfilter
  · have h2 : (create_job jobs fresh_id config_id inc now).2 =
        jobs ++ [newJob fresh_id config_id inc] := by simp [create_job, hsm]
    rw [h2]
    intro k hk hkid
    rcases List.mem_append.1 hk with hkin | hkin
    · exact absurd hkid (hfresh k hkin)
    · have : k = newJob fresh_id config_id inc := by simpa using hkin
      rw [this]
      rfl

/-- A running job of configuration 3 used in the C3 witness. -/
def conflictFixtureRunning : MigrationJob :=
  { id := 1, mapping_configuration_id := 3, status := "running",
    total_records := 10, processed_records := 2, failed_records := 0,
    start_time := some 5, end_time := none, error_message := none,
    is_incremental := false, batches := [] }

/-- Witness for C3: with a running job of configuration 3 in the table,
creating a second job for configuration 3 yields a conflict, the table
gains only the pending row, and the running count stays 1. -/
theorem create_job_conflict_witness :
    (create_job [conflictFixtureRunning] 2 3 false 9).1 =
      Except.error "ConflictError" ∧
    (create_job [conflictFixtureRunning] 2 3 false 9).2 =
      [conflictFixtureRunning] ++ [newJob 2 3 false] ∧
    runningFor (create_job [conflictFixtureRunning] 2 3 false 9).2 3 =
      runningFor [conflictFixtureRunning] 3 ∧
    (∀ j ∈ (create_job [conflictFixtureRunning] 2 3 false 9).2,
      j.id = 2 → j.status = "pending") :=
  create_job_conflict [conflictFixtureRunning] 2 3 false 9
    (by decide)
    ⟨conflictFixtureRunning, by decide, by decide, by decide⟩

end OracleMigration
